import Mathlib

/-!
# `ClassC` (examples/js_repo_s/src/ClassC.js)

A shallow embedding of the JavaScript class `ClassC`, which owns one `ClassA`
and one `ClassB` helper and forwards `introduceYourself` to them.

`ClassA.js` and `ClassB.js` are required by `ClassC.js` but are not part of the
sources at hand, so the two helper classes are a parameter (`Collaborators`):
any constructor and any method behaviour, each of which may return, throw and
change a collaborator-side world `W`.  The embedding records every call that
`ClassC` issues to a collaborator in a trace.
-/

namespace Codeas

/-! ## Data model -/

/-- The object `this` of a `ClassC`: its two own properties.  A property that
has not been assigned yet reads as `undefined`, here `none`. -/
structure ClassC (A B : Type) where
  instanceA : Option A
  instanceB : Option B
  deriving DecidableEq

/-- One call issued by `ClassC` to a collaborator: the two `new` expressions of
the constructor and the two method calls of `introduceYourself`, each with the
argument or the receiver it is issued on. -/
inductive Call (Num A B : Type) where
  | newClassA (name : String)
  | newClassB (age : Num)
  | sayHello (receiver : A)
  | getAge (receiver : B)
  deriving DecidableEq

/-- What a `ClassC` function can throw: a value raised by a collaborator, or the
`TypeError` of JavaScript for a method call on an `undefined` property. -/
inductive Thrown (Err : Type) where
  | raised (e : Err)
  | typeError
  deriving DecidableEq

/-- The classes `ClassA` and `ClassB` as `ClassC.js` uses them: `new ClassA(name)`,
`new ClassB(age)`, `a.sayHello()` and `b.getAge()`.  Each takes the collaborator
world and gives back the world it leaves behind together with either the value
it returns or the value it throws. -/
structure Collaborators (Num Val Err W A B : Type) where
  newClassA : String → W → Except Err A × W
  newClassB : Num → W → Except Err B × W
  sayHello : A → W → Except Err Val × W
  getAge : B → W → Except Err Val × W

/-- The state in which a function body of `ClassC` runs: the object bound to
`this`, the world of the collaborators, and the calls issued to them so far. -/
structure Frame (Num W A B : Type) where
  this : ClassC A B
  world : W
  trace : List (Call Num A B)

/-- A computation of a `ClassC` function body: from a frame to the frame it
leaves and either a returned value or a thrown one.  The frame survives a
throw. -/
def Exec (Num Err W A B : Type) (α : Type) : Type :=
  Frame Num W A B → Except (Thrown Err) α × Frame Num W A B

section Semantics

variable {Num Val Err W A B : Type}

/-- Normal completion with a value. -/
def Exec.pure {α : Type} (v : α) : Exec Num Err W A B α :=
  fun st => (.ok v, st)

/-- Sequencing of statements: a throw in the first skips the second. -/
def Exec.bind {α β : Type} (x : Exec Num Err W A B α)
    (f : α → Exec Num Err W A B β) : Exec Num Err W A B β :=
  fun st =>
    match x st with
    | (.ok v, st1) => f v st1
    | (.error e, st1) => (.error e, st1)

instance : Monad (Exec Num Err W A B) where
  pure := Exec.pure
  bind := Exec.bind

/-- Reading `this`. -/
def getThis : Exec Num Err W A B (ClassC A B) :=
  fun st => (.ok st.this, st)

/-- Assignment to a property of `this`. -/
def setThis (f : ClassC A B → ClassC A B) : Exec Num Err W A B Unit :=
  fun st => (.ok (), { st with this := f st.this })

/-- Call `c` of a collaborator with behaviour `f`: the call is recorded, the
collaborator runs on the world, and what it throws is thrown on unchanged. -/
def invoke {α : Type} (c : Call Num A B) (f : W → Except Err α × W) :
    Exec Num Err W A B α :=
  fun st =>
    match f st.world with
    | (.ok v, w) => (.ok v, { st with world := w, trace := st.trace ++ [c] })
    | (.error e, w) =>
      (.error (.raised e), { st with world := w, trace := st.trace ++ [c] })

/-- Method call `recv.m()` on a property value: a `TypeError` when the property
is `undefined`, and the call itself otherwise. -/
def callOn {R α : Type} (recv : Option R) (c : R → Call Num A B)
    (f : R → W → Except Err α × W) : Exec Num Err W A B α :=
  match recv with
  | none => fun st => (.error .typeError, st)
  | some r => invoke (c r) (f r)

/-- Body of the constructor of `ClassC`:
`this.instanceA = new ClassA(name); this.instanceB = new ClassB(age);`. -/
def ClassC.constructor (env : Collaborators Num Val Err W A B) (name : String)
    (age : Num) : Exec Num Err W A B Unit := do
  let a ← invoke (.newClassA name) (env.newClassA name)
  setThis fun this => { this with instanceA := some a }
  let b ← invoke (.newClassB age) (env.newClassB age)
  setThis fun this => { this with instanceB := some b }

/-- Expression `new ClassC(name, age)`, evaluated in world `w`: a fresh object
with no properties is bound to `this`, the constructor body runs, and the
object is the value of the expression unless the body threw.  The calls issued
on the way and the world left behind are given back in the frame. -/
def ClassC.new (env : Collaborators Num Val Err W A B) (name : String)
    (age : Num) (w : W) : Except (Thrown Err) (ClassC A B) × Frame Num W A B :=
  match ClassC.constructor env name age
      { this := { instanceA := none, instanceB := none }, world := w, trace := [] } with
  | (.ok _, st) => (.ok st.this, st)
  | (.error e, st) => (.error e, st)

/-- Method `introduceYourself() { this.instanceA.sayHello(); this.instanceB.getAge(); }`.
Both values are dropped and the body has no `return`, so the call evaluates
to `undefined`, here `none`. -/
def ClassC.introduceYourself (env : Collaborators Num Val Err W A B) :
    Exec Num Err W A B (Option Val) := do
  let this ← getThis
  let _ ← callOn this.instanceA .sayHello env.sayHello
  let this ← getThis
  let _ ← callOn this.instanceB .getAge env.getAge
  return none

end Semantics

/-! ## Three concrete pairs of helper classes

`ClassA.js` and `ClassB.js` are not among the sources, so these are stand-ins on
which `ClassC` is evaluated at concrete inputs; the general theorems hold for
every `Collaborators` and do not depend on them.  All three keep the console
output as their world and hold the constructor argument as the helper object;
they differ in whether and where they check it. -/

/-- Helpers that never throw: the constructors keep the argument, `sayHello`
and `getAge` print a line and return a value. -/
def plainHelpers : Collaborators Int (String ⊕ Int) String (List String) String Int where
  newClassA := fun name out => (.ok name, out)
  newClassB := fun age out => (.ok age, out)
  sayHello := fun a out => (.ok (.inl ("Hello, " ++ a)), out ++ ["Hello, " ++ a])
  getAge := fun b out => (.ok (.inr b), out ++ ["age"])

/-- Helpers that check nothing in the constructor and check on use:
`sayHello` throws on an empty name, `getAge` throws on a negative age;
otherwise each prints a line and returns a value. -/
def lazyHelpers : Collaborators Int (String ⊕ Int) String (List String) String Int where
  newClassA := fun name out => (.ok name, out)
  newClassB := fun age out => (.ok age, out)
  sayHello := fun a out =>
    if a = "" then (.error "no name", out)
    else (.ok (.inl ("Hello, " ++ a)), out ++ ["Hello, " ++ a])
  getAge := fun b out =>
    if b < 0 then (.error "negative age", out)
    else (.ok (.inr b), out ++ ["age"])

/-- Helpers that check the argument in the constructor: `new ClassA` throws on
an empty name, `new ClassB` throws on a negative age; the methods print a line
and return a value. -/
def strictHelpers : Collaborators Int (String ⊕ Int) String (List String) String Int where
  newClassA := fun name out =>
    if name = "" then (.error "no name", out) else (.ok name, out)
  newClassB := fun age out =>
    if age < 0 then (.error "negative age", out) else (.ok age, out)
  sayHello := fun a out => (.ok (.inl ("Hello, " ++ a)), out ++ ["Hello, " ++ a])
  getAge := fun b out => (.ok (.inr b), out ++ ["age"])

/-! ## Evaluation lemmas -/

section Lemmas

variable {Num Val Err W A B : Type}

/-- Both helper calls return: `introduceYourself` returns `undefined` after the
two calls. -/
theorem introduceYourself_returns (env : Collaborators Num Val Err W A B)
    (st : Frame Num W A B) (a : A) (b : B) (v1 v2 : Val) (w1 w2 : W)
    (hA : st.this.instanceA = some a) (hB : st.this.instanceB = some b)
    (h1 : env.sayHello a st.world = (.ok v1, w1))
    (h2 : env.getAge b w1 = (.ok v2, w2)) :
    ClassC.introduceYourself env st =
      (.ok none, { st with world := w2, trace := st.trace ++ [.sayHello a, .getAge b] }) := by
  simp [ClassC.introduceYourself, bind, Exec.bind, getThis, callOn, invoke, hA, hB, h1, h2,
    pure, Exec.pure]

/-- The call `sayHello` throws: `introduceYourself` stops there. -/
theorem introduceYourself_sayHello_throws (env : Collaborators Num Val Err W A B)
    (st : Frame Num W A B) (a : A) (e : Err) (w1 : W)
    (hA : st.this.instanceA = some a)
    (h1 : env.sayHello a st.world = (.error e, w1)) :
    ClassC.introduceYourself env st =
      (.error (.raised e), { st with world := w1, trace := st.trace ++ [.sayHello a] }) := by
  simp [ClassC.introduceYourself, bind, Exec.bind, getThis, callOn, invoke, hA, h1]

/-- The call `getAge` throws after `sayHello` returned. -/
theorem introduceYourself_getAge_throws (env : Collaborators Num Val Err W A B)
    (st : Frame Num W A B) (a : A) (b : B) (v1 : Val) (e : Err) (w1 w2 : W)
    (hA : st.this.instanceA = some a) (hB : st.this.instanceB = some b)
    (h1 : env.sayHello a st.world = (.ok v1, w1))
    (h2 : env.getAge b w1 = (.error e, w2)) :
    ClassC.introduceYourself env st =
      (.error (.raised e),
        { st with world := w2, trace := st.trace ++ [.sayHello a, .getAge b] }) := by
  simp [ClassC.introduceYourself, bind, Exec.bind, getThis, callOn, invoke, hA, hB, h1, h2]

/-- Both helper constructors return: `new ClassC(name, age)` is the object with
both properties assigned. -/
theorem new_returns (env : Collaborators Num Val Err W A B) (name : String) (age : Num)
    (w w1 w2 : W) (a : A) (b : B)
    (h1 : env.newClassA name w = (.ok a, w1))
    (h2 : env.newClassB age w1 = (.ok b, w2)) :
    ClassC.new env name age w =
      (.ok { instanceA := some a, instanceB := some b },
        { this := { instanceA := some a, instanceB := some b }, world := w2,
          trace := [.newClassA name, .newClassB age] }) := by
  simp [ClassC.new, ClassC.constructor, bind, Exec.bind, setThis, invoke, h1, h2]

/-- The constructor of `ClassA` throws: the fresh object is left without
properties and is not returned. -/
theorem new_classA_throws (env : Collaborators Num Val Err W A B) (name : String) (age : Num)
    (w w1 : W) (e : Err)
    (h1 : env.newClassA name w = (.error e, w1)) :
    ClassC.new env name age w =
      (.error (.raised e),
        { this := { instanceA := none, instanceB := none }, world := w1,
          trace := [.newClassA name] }) := by
  simp [ClassC.new, ClassC.constructor, bind, Exec.bind, invoke, h1]

/-- The constructor of `ClassB` throws after `instanceA` was assigned: the object
is not returned. -/
theorem new_classB_throws (env : Collaborators Num Val Err W A B) (name : String) (age : Num)
    (w w1 w2 : W) (a : A) (e : Err)
    (h1 : env.newClassA name w = (.ok a, w1))
    (h2 : env.newClassB age w1 = (.error e, w2)) :
    ClassC.new env name age w =
      (.error (.raised e),
        { this := { instanceA := some a, instanceB := none }, world := w2,
          trace := [.newClassA name, .newClassB age] }) := by
  simp [ClassC.new, ClassC.constructor, bind, Exec.bind, setThis, invoke, h1, h2]

/-- No statement of `introduceYourself` assigns to `this`. -/
theorem introduceYourself_this (env : Collaborators Num Val Err W A B)
    (st : Frame Num W A B) :
    (ClassC.introduceYourself env st).2.this = st.this := by
  simp only [ClassC.introduceYourself, bind, Exec.bind, getThis, callOn, pure, Exec.pure]
  cases hA : st.this.instanceA with
  | none => rfl
  | some a =>
    simp only [invoke]
    rcases h1 : env.sayHello a st.world with ⟨r1, w1⟩
    cases r1 with
    | error e => rfl
    | ok v1 =>
      simp only []
      cases hB : st.this.instanceB with
      | none => rfl
      | some b =>
        simp only []
        rcases h2 : env.getAge b w1 with ⟨r2, w2⟩
        cases r2 <;> simp [invoke, h2]

/-- Every object that `new ClassC(name, age)` evaluates to has both properties
assigned. -/
theorem new_assigns_both (env : Collaborators Num Val Err W A B) (name : String) (age : Num)
    (w : W) (c : ClassC A B) (h : (ClassC.new env name age w).1 = .ok c) :
    ∃ a b, c = { instanceA := some a, instanceB := some b } := by
  rcases h1 : env.newClassA name w with ⟨r1, w1⟩
  cases r1 with
  | error e => rw [new_classA_throws env name age w w1 e h1] at h; cases h
  | ok a =>
    rcases h2 : env.newClassB age w1 with ⟨r2, w2⟩
    cases r2 with
    | error e => rw [new_classB_throws env name age w w1 w2 a e h1 h2] at h; cases h
    | ok b =>
      rw [new_returns env name age w w1 w2 a b h1 h2] at h
      exact ⟨a, b, by cases h; rfl⟩

end Lemmas


/-! ## The constructor -/

section Construction

variable {Num Val Err W A B : Type}

/-- C1, counterexample.  With helpers whose `ClassA` constructor rejects the
empty name, `new ClassC("", 30)` throws after the single call `new ClassA("")`:
no `ClassB` is constructed with 30 and nothing is stored in either property. -/
theorem new_emptyName_constructs_no_classB :
    (ClassC.new strictHelpers "" 30 []).1 = .error (.raised "no name") ∧
    (ClassC.new strictHelpers "" 30 []).2.trace = [.newClassA ""] ∧
    Call.newClassB 30 ∉ (ClassC.new strictHelpers "" 30 []).2.trace ∧
    (ClassC.new strictHelpers "" 30 []).2.this = { instanceA := none, instanceB := none } := by
  refine ⟨rfl, rfl, ?_, rfl⟩
  decide

/-- C1, amended.  Whenever `new ClassA(name)` returns `a` and `new ClassB(age)`
then returns `b`, the expression `new ClassC(name, age)` issues exactly these
two constructor calls, with `name` and `age` as they were given, and evaluates
to an object whose `instanceA` is `a` and whose `instanceB` is `b`. -/
theorem new_passes_arguments_through (env : Collaborators Num Val Err W A B)
    (name : String) (age : Num) (w w1 w2 : W) (a : A) (b : B)
    (h1 : env.newClassA name w = (.ok a, w1))
    (h2 : env.newClassB age w1 = (.ok b, w2)) :
    (ClassC.new env name age w).2.trace = [.newClassA name, .newClassB age] ∧
    (ClassC.new env name age w).1 = .ok { instanceA := some a, instanceB := some b } ∧
    (ClassC.new env name age w).2.this = { instanceA := some a, instanceB := some b } := by
  rw [new_returns env name age w w1 w2 a b h1 h2]
  exact ⟨rfl, rfl, rfl⟩

/-- `new ClassC("Alice", 30)` with helpers that never throw. -/
theorem new_passes_arguments_through_witness :
    (ClassC.new plainHelpers "Alice" 30 []).2.trace = [.newClassA "Alice", .newClassB 30] ∧
    (ClassC.new plainHelpers "Alice" 30 []).1 =
      .ok { instanceA := some "Alice", instanceB := some 30 } ∧
    (ClassC.new plainHelpers "Alice" 30 []).2.this =
      { instanceA := some "Alice", instanceB := some 30 } :=
  new_passes_arguments_through plainHelpers "Alice" 30 [] [] [] "Alice" 30 rfl rfl

/-- C4.  Construction is atomic and does not recover.  If `new ClassA(name)`
throws `e`, then `new ClassC(name, age)` throws `e`, the only call issued is
`new ClassA(name)` and the world is the one that call left.  If `new ClassA`
returns and `new ClassB(age)` throws `e`, then `new ClassC(name, age)` throws
`e`.  An object is the value of `new ClassC(name, age)` exactly when both
helper constructors return. -/
theorem new_atomic (env : Collaborators Num Val Err W A B) (name : String) (age : Num)
    (w : W) :
    (∀ e w1, env.newClassA name w = (.error e, w1) →
      (ClassC.new env name age w).1 = .error (.raised e) ∧
      (ClassC.new env name age w).2.trace = [.newClassA name] ∧
      (ClassC.new env name age w).2.world = w1) ∧
    (∀ a w1 e w2, env.newClassA name w = (.ok a, w1) →
      env.newClassB age w1 = (.error e, w2) →
      (ClassC.new env name age w).1 = .error (.raised e)) ∧
    ((∃ c, (ClassC.new env name age w).1 = .ok c) ↔
      ∃ a w1 b w2, env.newClassA name w = (.ok a, w1) ∧
        env.newClassB age w1 = (.ok b, w2)) := by
  refine ⟨?_, ?_, ?_, ?_⟩
  · intro e w1 h1
    rw [new_classA_throws env name age w w1 e h1]
    exact ⟨rfl, rfl, rfl⟩
  · intro a w1 e w2 h1 h2
    rw [new_classB_throws env name age w w1 w2 a e h1 h2]
  · rintro ⟨c, hc⟩
    rcases h1 : env.newClassA name w with ⟨r1, w1⟩
    cases r1 with
    | error e => rw [new_classA_throws env name age w w1 e h1] at hc; cases hc
    | ok a =>
      rcases h2 : env.newClassB age w1 with ⟨r2, w2⟩
      cases r2 with
      | error e => rw [new_classB_throws env name age w w1 w2 a e h1 h2] at hc; cases hc
      | ok b => exact ⟨a, w1, b, w2, rfl, h2⟩
  · rintro ⟨a, w1, b, w2, h1, h2⟩
    exact ⟨_, by rw [new_returns env name age w w1 w2 a b h1 h2]⟩

/-- The three cases on helpers that check their argument in the constructor:
empty name, negative age, and an accepted pair. -/
theorem new_atomic_witness :
    ((ClassC.new strictHelpers "" 30 ["boot"]).1 = .error (.raised "no name") ∧
      (ClassC.new strictHelpers "" 30 ["boot"]).2.trace = [.newClassA ""] ∧
      (ClassC.new strictHelpers "" 30 ["boot"]).2.world = ["boot"]) ∧
    (ClassC.new strictHelpers "Alice" (-1) ["boot"]).1 = .error (.raised "negative age") ∧
    ∃ c, (ClassC.new strictHelpers "Alice" 30 ["boot"]).1 = .ok c :=
  ⟨(new_atomic strictHelpers "" 30 ["boot"]).1 "no name" ["boot"] rfl,
   (new_atomic strictHelpers "Alice" (-1) ["boot"]).2.1 "Alice" ["boot"] "negative age"
     ["boot"] rfl rfl,
   (new_atomic strictHelpers "Alice" 30 ["boot"]).2.2.2
     ⟨"Alice", ["boot"], 30, ["boot"], rfl, rfl⟩⟩

/-- C10, counterexample.  With helpers whose `ClassA` constructor rejects the
empty name, the trace of `new ClassC("", 7)` is `[new ClassA("")]` and not
`[new ClassA(""), new ClassB(7)]`. -/
theorem new_emptyName_trace :
    (ClassC.new strictHelpers "" 7 ["boot"]).2.trace = [.newClassA ""] ∧
    (ClassC.new strictHelpers "" 7 ["boot"]).2.trace ≠ [.newClassA "", .newClassB 7] := by
  refine ⟨rfl, ?_⟩
  decide

/-- C10, amended.  The first call that `new ClassC(name, age)` issues is
`new ClassA(name)`; whenever that constructor returns, the trace is exactly
`[new ClassA(name), new ClassB(age)]`; and in every case the trace holds no
`sayHello` and no `getAge` call. -/
theorem new_trace (env : Collaborators Num Val Err W A B) (name : String) (age : Num)
    (w : W) :
    (ClassC.new env name age w).2.trace.head? = some (.newClassA name) ∧
    (∀ a w1, env.newClassA name w = (.ok a, w1) →
      (ClassC.new env name age w).2.trace = [.newClassA name, .newClassB age]) ∧
    (∀ r, Call.sayHello r ∉ (ClassC.new env name age w).2.trace) ∧
    (∀ r, Call.getAge r ∉ (ClassC.new env name age w).2.trace) := by
  rcases h1 : env.newClassA name w with ⟨r1, w1⟩
  cases r1 with
  | error e =>
    rw [new_classA_throws env name age w w1 e h1]
    simp
  | ok a =>
    rcases h2 : env.newClassB age w1 with ⟨r2, w2⟩
    cases r2 with
    | error e =>
      rw [new_classB_throws env name age w w1 w2 a e h1 h2]
      simp
    | ok b =>
      rw [new_returns env name age w w1 w2 a b h1 h2]
      simp

/-- `new ClassC("Alice", 30)` with helpers that never throw. -/
theorem new_trace_witness :
    (ClassC.new plainHelpers "Alice" 30 []).2.trace = [.newClassA "Alice", .newClassB 30] :=
  (new_trace plainHelpers "Alice" 30 []).2.1 "Alice" [] rfl

end Construction

/-! ## `introduceYourself` -/

section Forwarding

variable {Num Val Err W A B : Type}

/-- C2.  On an instance whose `instanceA` is `a` and whose `instanceB` is `b`,
when `a.sayHello()` returns and `b.getAge()` then returns, one call of
`introduceYourself` appends to the trace exactly `[a.sayHello(), b.getAge()]`. -/
theorem introduceYourself_trace (env : Collaborators Num Val Err W A B)
    (st : Frame Num W A B) (a : A) (b : B) (v1 v2 : Val) (w1 w2 : W)
    (hA : st.this.instanceA = some a) (hB : st.this.instanceB = some b)
    (h1 : env.sayHello a st.world = (.ok v1, w1))
    (h2 : env.getAge b w1 = (.ok v2, w2)) :
    (ClassC.introduceYourself env st).2.trace = st.trace ++ [.sayHello a, .getAge b] := by
  rw [introduceYourself_returns env st a b v1 v2 w1 w2 hA hB h1 h2]

/-- The instance `new ClassC("Alice", 30)` with helpers that never throw. -/
theorem introduceYourself_trace_witness :
    (ClassC.new plainHelpers "Alice" 30 []).1 =
      .ok { instanceA := some "Alice", instanceB := some 30 } ∧
    (ClassC.introduceYourself plainHelpers (ClassC.new plainHelpers "Alice" 30 []).2).2.trace =
      (ClassC.new plainHelpers "Alice" 30 []).2.trace ++ [.sayHello "Alice", .getAge 30] :=
  ⟨rfl, introduceYourself_trace plainHelpers (ClassC.new plainHelpers "Alice" 30 []).2
    "Alice" 30 (.inl "Hello, Alice") (.inr 30) ["Hello, Alice"] ["Hello, Alice", "age"]
    rfl rfl rfl rfl⟩

/-- C3.  On an instance whose `instanceA` is `a`, when `a.sayHello()` throws
`e`, `introduceYourself` throws `e` itself, the only call it issues is
`a.sayHello()` (no `getAge`), and the world is the one `sayHello` left. -/
theorem introduceYourself_sayHello_fails (env : Collaborators Num Val Err W A B)
    (st : Frame Num W A B) (a : A) (e : Err) (w1 : W)
    (hA : st.this.instanceA = some a)
    (h1 : env.sayHello a st.world = (.error e, w1)) :
    (ClassC.introduceYourself env st).1 = .error (.raised e) ∧
    (ClassC.introduceYourself env st).2.trace = st.trace ++ [.sayHello a] ∧
    (ClassC.introduceYourself env st).2.world = w1 := by
  rw [introduceYourself_sayHello_throws env st a e w1 hA h1]
  exact ⟨rfl, rfl, rfl⟩

/-- An instance holding the empty name, with a `sayHello` that rejects it. -/
theorem introduceYourself_sayHello_fails_witness :
    (ClassC.introduceYourself lazyHelpers
        { this := { instanceA := some "", instanceB := some 30 }, world := [], trace := [] }).1 =
      .error (.raised "no name") ∧
    (ClassC.introduceYourself lazyHelpers
        { this := { instanceA := some "", instanceB := some 30 }, world := [],
          trace := [] }).2.trace = [] ++ [.sayHello ""] ∧
    (ClassC.introduceYourself lazyHelpers
        { this := { instanceA := some "", instanceB := some 30 }, world := [],
          trace := [] }).2.world = [] :=
  introduceYourself_sayHello_fails lazyHelpers
    { this := { instanceA := some "", instanceB := some 30 }, world := [], trace := [] }
    "" "no name" [] rfl rfl

/-- C9.  On an instance whose `instanceA` is `a` and whose `instanceB` is `b`,
when `a.sayHello()` returns and `b.getAge()` then throws `e`,
`introduceYourself` throws `e` itself, the calls it issues are exactly
`a.sayHello()` and then `b.getAge()`, once each, and the world is the one
`getAge` left. -/
theorem introduceYourself_getAge_fails (env : Collaborators Num Val Err W A B)
    (st : Frame Num W A B) (a : A) (b : B) (v1 : Val) (e : Err) (w1 w2 : W)
    (hA : st.this.instanceA = some a) (hB : st.this.instanceB = some b)
    (h1 : env.sayHello a st.world = (.ok v1, w1))
    (h2 : env.getAge b w1 = (.error e, w2)) :
    (ClassC.introduceYourself env st).1 = .error (.raised e) ∧
    (ClassC.introduceYourself env st).2.trace = st.trace ++ [.sayHello a, .getAge b] ∧
    (ClassC.introduceYourself env st).2.world = w2 := by
  rw [introduceYourself_getAge_throws env st a b v1 e w1 w2 hA hB h1 h2]
  exact ⟨rfl, rfl, rfl⟩

/-- An instance holding a negative age, with a `getAge` that rejects it. -/
theorem introduceYourself_getAge_fails_witness :
    (ClassC.introduceYourself lazyHelpers
        { this := { instanceA := some "Bob", instanceB := some (-1) }, world := [],
          trace := [] }).1 = .error (.raised "negative age") ∧
    (ClassC.introduceYourself lazyHelpers
        { this := { instanceA := some "Bob", instanceB := some (-1) }, world := [],
          trace := [] }).2.trace = [] ++ [.sayHello "Bob", .getAge (-1)] ∧
    (ClassC.introduceYourself lazyHelpers
        { this := { instanceA := some "Bob", instanceB := some (-1) }, world := [],
          trace := [] }).2.world = ["Hello, Bob"] :=
  introduceYourself_getAge_fails lazyHelpers
    { this := { instanceA := some "Bob", instanceB := some (-1) }, world := [], trace := [] }
    "Bob" (-1) (.inl "Hello, Bob") "negative age" ["Hello, Bob"] ["Hello, Bob"]
    rfl rfl rfl rfl

/-- C7.  Whenever `introduceYourself` returns, it returns `undefined`; and on
an instance whose two helper calls return, whatever values `v1` and `v2` they
return, `introduceYourself` returns `undefined`. -/
theorem introduceYourself_value (env : Collaborators Num Val Err W A B)
    (st : Frame Num W A B) :
    (∀ r, (ClassC.introduceYourself env st).1 = .ok r → r = none) ∧
    (∀ a b v1 v2 w1 w2, st.this.instanceA = some a → st.this.instanceB = some b →
      env.sayHello a st.world = (.ok v1, w1) → env.getAge b w1 = (.ok v2, w2) →
      (ClassC.introduceYourself env st).1 = .ok none) := by
  constructor
  · intro r hr
    simp only [ClassC.introduceYourself, bind, Exec.bind, getThis, callOn, pure,
      Exec.pure] at hr
    cases hA : st.this.instanceA with
    | none => simp [hA] at hr
    | some a =>
      rcases h1 : env.sayHello a st.world with ⟨r1, w1⟩
      cases r1 with
      | error e => simp [hA, invoke, h1] at hr
      | ok v1 =>
        cases hB : st.this.instanceB with
        | none => simp [hA, hB, invoke, h1] at hr
        | some b =>
          rcases h2 : env.getAge b w1 with ⟨r2, w2⟩
          cases r2 with
          | error e => simp [hA, hB, invoke, h1, h2] at hr
          | ok v2 =>
            simp [hA, hB, invoke, h1, h2] at hr
            exact hr.symm
  · intro a b v1 v2 w1 w2 hA hB h1 h2
    rw [introduceYourself_returns env st a b v1 v2 w1 w2 hA hB h1 h2]

/-- An instance whose helpers return a greeting and the age. -/
theorem introduceYourself_value_witness :
    (ClassC.introduceYourself plainHelpers
        { this := { instanceA := some "Alice", instanceB := some 30 }, world := [],
          trace := [] }).1 = .ok none :=
  (introduceYourself_value plainHelpers
    { this := { instanceA := some "Alice", instanceB := some 30 }, world := [],
      trace := [] }).2 "Alice" 30 (.inl "Hello, Alice") (.inr 30) ["Hello, Alice"]
    ["Hello, Alice", "age"] rfl rfl rfl rfl

/-- C8.  `introduceYourself` leaves the object bound to `this` as it found it,
whether the helper calls return or throw: `instanceA` and `instanceB` hold the
same helpers after the call as before it, and a property that was assigned
stays assigned. -/
theorem introduceYourself_frame (env : Collaborators Num Val Err W A B)
    (st : Frame Num W A B) :
    (ClassC.introduceYourself env st).2.this = st.this ∧
    (∀ a, st.this.instanceA = some a →
      (ClassC.introduceYourself env st).2.this.instanceA = some a) ∧
    (∀ b, st.this.instanceB = some b →
      (ClassC.introduceYourself env st).2.this.instanceB = some b) := by
  rw [introduceYourself_this env st]
  exact ⟨rfl, fun _ h => h, fun _ h => h⟩

/-- An instance whose `sayHello` throws keeps both helpers. -/
theorem introduceYourself_frame_witness :
    (ClassC.introduceYourself lazyHelpers
        { this := { instanceA := some "", instanceB := some 30 }, world := [],
          trace := [] }).2.this.instanceA = some "" ∧
    (ClassC.introduceYourself lazyHelpers
        { this := { instanceA := some "", instanceB := some 30 }, world := [],
          trace := [] }).2.this.instanceB = some 30 :=
  ⟨(introduceYourself_frame lazyHelpers
      { this := { instanceA := some "", instanceB := some 30 }, world := [],
        trace := [] }).2.1 "" rfl,
   (introduceYourself_frame lazyHelpers
      { this := { instanceA := some "", instanceB := some 30 }, world := [],
        trace := [] }).2.2 30 rfl⟩

/-- C5.  On an instance whose `instanceA` is `a` and whose `instanceB` is `b`,
when the helper calls of two successive `introduceYourself` calls all return,
each of the two appends `[a.sayHello(), b.getAge()]`, so the trace grows by
`[a.sayHello(), b.getAge(), a.sayHello(), b.getAge()]`, and the object bound to
`this` is the same after the first and after the second call as before. -/
theorem introduceYourself_twice (env : Collaborators Num Val Err W A B)
    (st : Frame Num W A B) (a : A) (b : B) (v1 v2 v3 v4 : Val) (w1 w2 w3 w4 : W)
    (hA : st.this.instanceA = some a) (hB : st.this.instanceB = some b)
    (h1 : env.sayHello a st.world = (.ok v1, w1))
    (h2 : env.getAge b w1 = (.ok v2, w2))
    (h3 : env.sayHello a w2 = (.ok v3, w3))
    (h4 : env.getAge b w3 = (.ok v4, w4)) :
    (ClassC.introduceYourself env st).2.trace = st.trace ++ [.sayHello a, .getAge b] ∧
    (ClassC.introduceYourself env (ClassC.introduceYourself env st).2).2.trace =
      (ClassC.introduceYourself env st).2.trace ++ [.sayHello a, .getAge b] ∧
    (ClassC.introduceYourself env (ClassC.introduceYourself env st).2).2.trace =
      st.trace ++ [.sayHello a, .getAge b, .sayHello a, .getAge b] ∧
    (ClassC.introduceYourself env st).2.this = st.this ∧
    (ClassC.introduceYourself env (ClassC.introduceYourself env st).2).2.this = st.this := by
  have e1 := introduceYourself_returns env st a b v1 v2 w1 w2 hA hB h1 h2
  have e2 := introduceYourself_returns env
    { st with world := w2, trace := st.trace ++ [.sayHello a, .getAge b] }
    a b v3 v4 w3 w4 hA hB h3 h4
  rw [e1, e2]
  simp

/-- Two calls on an instance for Alice, 30, with helpers that never throw. -/
theorem introduceYourself_twice_witness :
    (ClassC.introduceYourself plainHelpers
        (ClassC.introduceYourself plainHelpers
          { this := { instanceA := some "Alice", instanceB := some 30 }, world := [],
            trace := [] }).2).2.trace =
      [] ++ [.sayHello "Alice", .getAge 30, .sayHello "Alice", .getAge 30] :=
  (introduceYourself_twice plainHelpers
    { this := { instanceA := some "Alice", instanceB := some 30 }, world := [], trace := [] }
    "Alice" 30 (.inl "Hello, Alice") (.inr 30) (.inl "Hello, Alice") (.inr 30)
    ["Hello, Alice"] ["Hello, Alice", "age"] ["Hello, Alice", "age", "Hello, Alice"]
    ["Hello, Alice", "age", "Hello, Alice", "age"] rfl rfl rfl rfl rfl rfl).2.2.1

/-- C6, counterexample.  With helpers whose constructors accept every argument
and whose `sayHello` rejects the empty name, `new ClassC("", 0)` returns an
object, and the `introduceYourself` that follows throws after `sayHello`
without invoking `getAge`. -/
theorem new_emptyName_zero_skips_getAge :
    (ClassC.new lazyHelpers "" 0 []).1 = .ok { instanceA := some "", instanceB := some 0 } ∧
    (ClassC.introduceYourself lazyHelpers (ClassC.new lazyHelpers "" 0 []).2).1 =
      .error (.raised "no name") ∧
    (ClassC.introduceYourself lazyHelpers (ClassC.new lazyHelpers "" 0 []).2).2.trace =
      [.newClassA "", .newClassB 0, .sayHello ""] ∧
    Call.getAge 0 ∉
      (ClassC.introduceYourself lazyHelpers (ClassC.new lazyHelpers "" 0 []).2).2.trace := by
  refine ⟨rfl, rfl, rfl, ?_⟩
  decide

/-- C6, amended.  Whenever `new ClassA(name)` returns `a` and `new ClassB(age)`
then returns `b`, whatever `name` and `age` are, `new ClassC(name, age)` returns
an object; the `introduceYourself` that follows invokes `a.sayHello()` first,
and whenever that call returns it invokes `b.getAge()` next and nothing else. -/
theorem new_without_validation (env : Collaborators Num Val Err W A B)
    (name : String) (age : Num) (w w1 w2 : W) (a : A) (b : B)
    (h1 : env.newClassA name w = (.ok a, w1))
    (h2 : env.newClassB age w1 = (.ok b, w2)) :
    (ClassC.new env name age w).1 = .ok { instanceA := some a, instanceB := some b } ∧
    (∃ rest, (ClassC.introduceYourself env (ClassC.new env name age w).2).2.trace =
      [.newClassA name, .newClassB age, .sayHello a] ++ rest) ∧
    (∀ v w3, env.sayHello a w2 = (.ok v, w3) →
      (ClassC.introduceYourself env (ClassC.new env name age w).2).2.trace =
        [.newClassA name, .newClassB age, .sayHello a, .getAge b]) := by
  rw [new_returns env name age w w1 w2 a b h1 h2]
  refine ⟨rfl, ?_, ?_⟩
  · rcases h3 : env.sayHello a w2 with ⟨r3, w3⟩
    cases r3 with
    | error e =>
      rw [introduceYourself_sayHello_throws env _ a e w3 rfl h3]
      exact ⟨[], rfl⟩
    | ok v =>
      rcases h4 : env.getAge b w3 with ⟨r4, w4⟩
      cases r4 with
      | error e =>
        rw [introduceYourself_getAge_throws env _ a b v e w3 w4 rfl rfl h3 h4]
        exact ⟨[.getAge b], rfl⟩
      | ok v4 =>
        rw [introduceYourself_returns env _ a b v v4 w3 w4 rfl rfl h3 h4]
        exact ⟨[.getAge b], rfl⟩
  · intro v w3 h3
    rcases h4 : env.getAge b w3 with ⟨r4, w4⟩
    cases r4 with
    | error e =>
      rw [introduceYourself_getAge_throws env _ a b v e w3 w4 rfl rfl h3 h4]
      rfl
    | ok v4 =>
      rw [introduceYourself_returns env _ a b v v4 w3 w4 rfl rfl h3 h4]
      rfl

/-- The pair of the empty string and zero, with helpers that never throw. -/
theorem new_without_validation_witness :
    (ClassC.new plainHelpers "" 0 []).1 = .ok { instanceA := some "", instanceB := some 0 } ∧
    (ClassC.introduceYourself plainHelpers (ClassC.new plainHelpers "" 0 []).2).2.trace =
      [.newClassA "", .newClassB 0, .sayHello "", .getAge 0] :=
  ⟨(new_without_validation plainHelpers "" 0 [] [] [] "" 0 rfl rfl).1,
   (new_without_validation plainHelpers "" 0 [] [] [] "" 0 rfl rfl).2.2
     (.inl "Hello, ") ["Hello, "] rfl⟩

end Forwarding

end Codeas
